import Mathlib

/-!
Verification of the SMART_VALVE_SYSTEM backend core against its design
specification.

The development shallowly embeds the Python source:

* `backend/app/services/rules_engine.py` — safety rule evaluator
  (`validate_telemetry`, `can_open_valve`, `get_alert_priority`);
* `backend/app/serial_manager.py` — device link (`send_command` response
  selection, `parse_telemetry`);
* `backend/app/api/valve.py` — command issuance endpoints and their
  response classification;
* `backend/app/ws_manager.py` — broadcast hub sweep and subscriber
  removal.

Python floats are modelled as rationals (`ℚ`): the code performs only
comparisons and equality tests on sensor values, never rounding
arithmetic, so the embedding is exact on every decimal literal that
occurs.  Python dictionaries are modelled either as structures with
optional fields (the rules engine consults a fixed set of keys through
`dict.get(key, 0)`) or as association lists (the parsed telemetry JSON
object).  Numeric rendering inside f-strings is modelled by a concrete
decimal printer (`numStr`); it differs from CPython float `repr` only in
trailing-zero style (`6` vs `6.0`), which no claim depends on.
-/

/-! ## String helpers (models of Python `str` operations, ASCII range) -/

/-- Model of Python `hay.startswith(needle)` on character lists:
`startsWithL needle hay`. -/
def startsWithL : List Char → List Char → Bool
  | [], _ => true
  | _ :: _, [] => false
  | c :: cs, d :: ds => c == d && startsWithL cs ds

/-- Model of Python `needle in hay` (substring test) on character lists. -/
def containsSubL (needle : List Char) : List Char → Bool
  | [] => needle.isEmpty
  | d :: ds => startsWithL needle (d :: ds) || containsSubL needle ds

/-- Model of Python `s.startswith(p)`. -/
def strStartsWith (s p : String) : Bool :=
  startsWithL p.toList s.toList

/-- Model of Python `needle in hay` on strings. -/
def containsSub (needle hay : String) : Bool :=
  containsSubL needle.toList hay.toList

/-- ASCII lower-casing of one character (model of `str.lower` on the
character range this system uses). -/
def lowerChar (c : Char) : Char :=
  if 'A' ≤ c ∧ c ≤ 'Z' then Char.ofNat (c.toNat + 32) else c

/-- Model of Python `s.lower()` (ASCII range). -/
def lowerStr (s : String) : String :=
  String.mk (s.toList.map lowerChar)

/-- Decimal rendering of a natural number (digits only). -/
def natStr (n : Nat) : String :=
  String.mk (Nat.toDigits 10 n)

/-- Decimal rendering of an integer. -/
def intStr (i : Int) : String :=
  if i < 0 then "-" ++ natStr i.natAbs else natStr i.natAbs

/-- Rendering of a rational sensor value inside a violation message.
Models the `{value}` interpolation of the Python f-strings; it differs
from CPython float formatting only in trailing-zero style, which no
claim inspects. -/
def numStr (q : ℚ) : String :=
  if q.den == 1 then intStr q.num else intStr q.num ++ "/" ++ natStr q.den

/-! ## Rules engine (`backend/app/services/rules_engine.py`) -/

/-- Threshold configuration of `RulesEngine.__init__`: `max_pressure`
and `critical_concentration` come from the environment with defaults
6.0 and 500.0; the other two are fixed. -/
structure RulesEngine where
  max_pressure : ℚ
  critical_concentration : ℚ
  min_src_concentration : ℚ
  max_dst_concentration : ℚ

/-- The default engine: `MAX_PRESSURE_BAR=6.0`, `CRITICAL_CONCENTRATION=500.0`,
`min_src_concentration=10.0`, `max_dst_concentration=400.0`. -/
def defaultEngine : RulesEngine :=
  { max_pressure := 6
    critical_concentration := 500
    min_src_concentration := 10
    max_dst_concentration := 400 }

/-- A telemetry dictionary as consulted by the rules engine: each field
is the value found under the corresponding key, or `none` when the key
is absent (the code reads every key through `telemetry.get(key, 0)`). -/
structure Telemetry where
  p1 : Option ℚ
  p2 : Option ℚ
  c_src : Option ℚ
  c_dst : Option ℚ
  em : Option ℚ

/-- The telemetry dictionary with every key absent. -/
def emptyTelemetry : Telemetry :=
  { p1 := none, p2 := none, c_src := none, c_dst := none, em := none }

/-- Violation message of the `p1` check (f-string of line 35). -/
def msgP1 (e : RulesEngine) (p1 : ℚ) : String :=
  "Pressure sensor 1 exceeds limit: " ++
    (numStr p1 ++ (" > " ++ (numStr e.max_pressure ++ " bar")))

/-- Violation message of the `p2` check (f-string of line 38). -/
def msgP2 (e : RulesEngine) (p2 : ℚ) : String :=
  "Pressure sensor 2 exceeds limit: " ++
    (numStr p2 ++ (" > " ++ (numStr e.max_pressure ++ " bar")))

/-- Violation message of the `c_src` check (f-string of line 45). -/
def msgCsrc (e : RulesEngine) (c : ℚ) : String :=
  "Source concentration critical: " ++
    (numStr c ++ (" > " ++ (numStr e.critical_concentration ++ " units")))

/-- Violation message of the `c_dst` check (f-string of line 48). -/
def msgCdst (e : RulesEngine) (c : ℚ) : String :=
  "Destination concentration critical: " ++
    (numStr c ++ (" > " ++ (numStr e.critical_concentration ++ " units")))

/-- `RulesEngine.validate_telemetry`: accumulate one violation per
breached check in the order p1, p2, c_src, c_dst; safe is
`len(violations) == 0`. -/
def validate_telemetry (e : RulesEngine) (tl : Telemetry) :
    Bool × List String :=
  let p1 := tl.p1.getD 0
  let p2 := tl.p2.getD 0
  let c_src := tl.c_src.getD 0
  let c_dst := tl.c_dst.getD 0
  let violations :=
    (if p1 > e.max_pressure then [msgP1 e p1] else []) ++
    (if p2 > e.max_pressure then [msgP2 e p2] else []) ++
    (if c_src > e.critical_concentration then [msgCsrc e c_src] else []) ++
    (if c_dst > e.critical_concentration then [msgCdst e c_dst] else [])
  (violations.length == 0, violations)

/-- `RulesEngine.can_open_valve`: emergency flag, then overall safety,
then minimum source concentration, then maximum destination
concentration; first failing check wins. -/
def can_open_valve (e : RulesEngine) (tl : Telemetry) : Bool × String :=
  if tl.em.getD 0 = 1 then
    (false, "System in emergency mode")
  else
    let v := validate_telemetry e tl
    if v.1 = false then
      (false, "Safety violations: " ++ String.intercalate "; " v.2)
    else
      let c_src := tl.c_src.getD 0
      if c_src < e.min_src_concentration then
        (false, "Source concentration too low: " ++
          (numStr c_src ++ (" < " ++ numStr e.min_src_concentration)))
      else
        let c_dst := tl.c_dst.getD 0
        if c_dst > e.max_dst_concentration then
          (false, "Destination concentration too high: " ++
            (numStr c_dst ++ (" > " ++ numStr e.max_dst_concentration)))
        else
          (true, "All checks passed")

/-- `RulesEngine.get_alert_priority`: scan the keyword list and return
CRITICAL on the first case-insensitive substring hit, else HIGH. -/
def get_alert_priority (violation_type : String) : String :=
  if (["pressure", "critical", "emergency"]).any
      (fun k => containsSub (lowerStr k) (lowerStr violation_type)) then
    "CRITICAL"
  else
    "HIGH"

/-! ## Generic facts about the string helpers -/

theorem startsWithL_append (n : List Char) :
    ∀ (h t : List Char), startsWithL n h = true →
      startsWithL n (h ++ t) = true := by
  induction n with
  | nil => intro h t _; simp [startsWithL]
  | cons c cs ih =>
    intro h t hs
    cases h with
    | nil => simp [startsWithL] at hs
    | cons d ds =>
      simp [startsWithL] at hs ⊢
      exact ⟨hs.1, ih ds t hs.2⟩

theorem containsSubL_nil (l : List Char) : containsSubL [] l = true := by
  cases l <;> simp [containsSubL, startsWithL, List.isEmpty]

theorem containsSubL_append (n : List Char) :
    ∀ (h t : List Char), containsSubL n h = true →
      containsSubL n (h ++ t) = true := by
  intro h
  induction h with
  | nil =>
    intro t hs
    simp [containsSubL, List.isEmpty_iff] at hs
    subst hs
    exact containsSubL_nil t
  | cons d ds ih =>
    intro t hs
    simp [containsSubL] at hs ⊢
    rcases hs with h1 | h2
    · exact Or.inl (by simpa using startsWithL_append n (d :: ds) t h1)
    · exact Or.inr (ih t h2)

theorem strToList_append (a b : String) :
    (a ++ b).toList = a.toList ++ b.toList := by
  cases a
  cases b
  rfl

theorem strToList_length (a : String) : a.toList.length = a.length := by
  cases a
  rfl

/-- If `p` is not a prefix of `q` and is no longer than `q`, then no
extensions of the two are equal. -/
theorem listAppend_ne (p : List Char) :
    ∀ (q : List Char), p.length ≤ q.length → startsWithL p q = false →
      ∀ (a b : List Char), p ++ a ≠ q ++ b := by
  induction p with
  | nil => intro q _ hpre; simp [startsWithL] at hpre
  | cons c cs ih =>
    intro q hlen hpre a b heq
    cases q with
    | nil => simp at hlen
    | cons d ds =>
      simp only [List.cons_append, List.cons.injEq] at heq
      obtain ⟨hcd, htail⟩ := heq
      simp [startsWithL, hcd] at hpre
      exact ih ds (by simpa using hlen) hpre a b htail

theorem strAppend_ne (p q a b : String)
    (hlen : p.toList.length ≤ q.toList.length)
    (hpre : startsWithL p.toList q.toList = false) : p ++ a ≠ q ++ b := by
  intro h
  have h2 := congrArg String.toList h
  rw [strToList_append, strToList_append] at h2
  exact listAppend_ne p.toList q.toList hlen hpre a.toList b.toList h2

theorem strAppend_ne_lit (p a q : String)
    (hlen : p.toList.length ≤ q.toList.length)
    (hpre : startsWithL p.toList q.toList = false) : p ++ a ≠ q := by
  intro h
  have h2 := congrArg String.toList h
  rw [strToList_append, ← List.append_nil q.toList] at h2
  exact listAppend_ne p.toList q.toList hlen hpre a.toList [] h2

theorem strAppend_ne_short (p a q : String)
    (hlen : q.toList.length < p.toList.length) : p ++ a ≠ q := by
  intro h
  have h2 := congrArg String.length h
  rw [← strToList_length, ← strToList_length, strToList_append,
    List.length_append] at h2
  omega

theorem containsSub_of_append (n p rest : String)
    (h : containsSub n p = true) : containsSub n (p ++ rest) = true := by
  unfold containsSub at h ⊢
  rw [strToList_append]
  exact containsSubL_append n.toList p.toList rest.toList h

/-! ## Inequalities between the rule-violation messages -/

theorem msgP2_beq_msgP1 (e e' : RulesEngine) (a b : ℚ) :
    (msgP2 e a == msgP1 e' b) = false := by
  refine beq_eq_false_iff_ne.mpr ?_
  unfold msgP2 msgP1
  exact strAppend_ne _ _ _ _ (by decide) (by decide)

theorem msgP1_beq_msgP2 (e e' : RulesEngine) (a b : ℚ) :
    (msgP1 e a == msgP2 e' b) = false := by
  refine beq_eq_false_iff_ne.mpr ?_
  unfold msgP2 msgP1
  exact strAppend_ne _ _ _ _ (by decide) (by decide)

theorem msgCsrc_beq_msgP1 (e e' : RulesEngine) (a b : ℚ) :
    (msgCsrc e a == msgP1 e' b) = false := by
  refine beq_eq_false_iff_ne.mpr ?_
  unfold msgCsrc msgP1
  exact strAppend_ne _ _ _ _ (by decide) (by decide)

theorem msgCsrc_beq_msgP2 (e e' : RulesEngine) (a b : ℚ) :
    (msgCsrc e a == msgP2 e' b) = false := by
  refine beq_eq_false_iff_ne.mpr ?_
  unfold msgCsrc msgP2
  exact strAppend_ne _ _ _ _ (by decide) (by decide)

theorem msgCdst_beq_msgP1 (e e' : RulesEngine) (a b : ℚ) :
    (msgCdst e a == msgP1 e' b) = false := by
  refine beq_eq_false_iff_ne.mpr ?_
  unfold msgCdst msgP1
  exact Ne.symm (strAppend_ne _ _ _ _ (by decide) (by decide))

theorem msgCdst_beq_msgP2 (e e' : RulesEngine) (a b : ℚ) :
    (msgCdst e a == msgP2 e' b) = false := by
  refine beq_eq_false_iff_ne.mpr ?_
  unfold msgCdst msgP2
  exact Ne.symm (strAppend_ne _ _ _ _ (by decide) (by decide))

theorem sensor1_in_msgP1 (e : RulesEngine) (x : ℚ) :
    containsSub "sensor 1" (msgP1 e x) = true := by
  unfold msgP1
  exact containsSub_of_append _ _ _ (by decide)

theorem sensor2_in_msgP2 (e : RulesEngine) (x : ℚ) :
    containsSub "sensor 2" (msgP2 e x) = true := by
  unfold msgP2
  exact containsSub_of_append _ _ _ (by decide)

/-! ## Claim C1 -/

/-- The four checks of `validate_telemetry`, in the order the code runs
them, each paired with whether it is breached (specification-side
description of the accumulation loop). -/
def violationChecks (e : RulesEngine) (tl : Telemetry) :
    List (String × Bool) :=
  [ (msgP1 e (tl.p1.getD 0), decide (tl.p1.getD 0 > e.max_pressure)),
    (msgP2 e (tl.p2.getD 0), decide (tl.p2.getD 0 > e.max_pressure)),
    (msgCsrc e (tl.c_src.getD 0),
      decide (tl.c_src.getD 0 > e.critical_concentration)),
    (msgCdst e (tl.c_dst.getD 0),
      decide (tl.c_dst.getD 0 > e.critical_concentration)) ]

theorem length_beq_zero_iff (l : List String) :
    ((l.length == 0) = true ↔ l = []) := by
  cases l <;> simp

/-- Claim C1: `validate_telemetry` reports safe iff the violation list is
empty; the list holds exactly one violation string per breached check
(p1, p2 against max pressure; c_src, c_dst against critical
concentration), in that fixed order; a sample within all four bounds is
safe with zero violations; and a sample with `p1 > max_pressure` is
unsafe with exactly one sensor-1 violation entry, plus exactly one
sensor-2 entry when p2 also breaches. -/
theorem C1_validate_telemetry_correct (e : RulesEngine) (tl : Telemetry) :
    ((validate_telemetry e tl).1 = true ↔ (validate_telemetry e tl).2 = []) ∧
    (validate_telemetry e tl).2 =
      ((violationChecks e tl).filter (fun c => c.2)).map (fun c => c.1) ∧
    (tl.p1.getD 0 ≤ e.max_pressure → tl.p2.getD 0 ≤ e.max_pressure →
      tl.c_src.getD 0 ≤ e.critical_concentration →
      tl.c_dst.getD 0 ≤ e.critical_concentration →
      validate_telemetry e tl = (true, [])) ∧
    (tl.p1.getD 0 > e.max_pressure →
      (validate_telemetry e tl).1 = false ∧
      (validate_telemetry e tl).2.countP
        (fun v => v == msgP1 e (tl.p1.getD 0)) = 1 ∧
      containsSub "sensor 1" (msgP1 e (tl.p1.getD 0)) = true ∧
      (tl.p2.getD 0 > e.max_pressure →
        (validate_telemetry e tl).2.countP
          (fun v => v == msgP2 e (tl.p2.getD 0)) = 1 ∧
        containsSub "sensor 2" (msgP2 e (tl.p2.getD 0)) = true)) := by
  refine ⟨length_beq_zero_iff _, ?_, ?_, ?_⟩
  · by_cases h1 : tl.p1.getD 0 > e.max_pressure <;>
      by_cases h2 : tl.p2.getD 0 > e.max_pressure <;>
        by_cases h3 : tl.c_src.getD 0 > e.critical_concentration <;>
          by_cases h4 : tl.c_dst.getD 0 > e.critical_concentration <;>
            simp [validate_telemetry, violationChecks, h1, h2, h3, h4]
  · intro b1 b2 b3 b4
    have h1 : ¬ tl.p1.getD 0 > e.max_pressure := not_lt.mpr b1
    have h2 : ¬ tl.p2.getD 0 > e.max_pressure := not_lt.mpr b2
    have h3 : ¬ tl.c_src.getD 0 > e.critical_concentration := not_lt.mpr b3
    have h4 : ¬ tl.c_dst.getD 0 > e.critical_concentration := not_lt.mpr b4
    simp [validate_telemetry, h1, h2, h3, h4]
  · intro h1
    refine ⟨?_, ?_, sensor1_in_msgP1 e _, fun h2 => ⟨?_, sensor2_in_msgP2 e _⟩⟩
    · by_cases h2 : tl.p2.getD 0 > e.max_pressure <;>
        by_cases h3 : tl.c_src.getD 0 > e.critical_concentration <;>
          by_cases h4 : tl.c_dst.getD 0 > e.critical_concentration <;>
            simp [validate_telemetry, h1, h2, h3, h4]
    · by_cases h2 : tl.p2.getD 0 > e.max_pressure <;>
        by_cases h3 : tl.c_src.getD 0 > e.critical_concentration <;>
          by_cases h4 : tl.c_dst.getD 0 > e.critical_concentration <;>
            simp [validate_telemetry, h1, h2, h3, h4, List.countP_cons,
              List.countP_append, msgP2_beq_msgP1, msgCsrc_beq_msgP1,
              msgCdst_beq_msgP1]
    · by_cases h3 : tl.c_src.getD 0 > e.critical_concentration <;>
        by_cases h4 : tl.c_dst.getD 0 > e.critical_concentration <;>
          simp [validate_telemetry, h1, h2, h3, h4, List.countP_cons,
            List.countP_append, msgP1_beq_msgP2, msgCsrc_beq_msgP2,
            msgCdst_beq_msgP2]

/-- Concrete instantiation of `C1_validate_telemetry_correct`: the
all-within-bounds branch at the nominal sample and the breached-p1
branch at a sample with p1 = 7.5, p2 = 6.5 under default thresholds. -/
theorem C1_validate_telemetry_correct_witness :
    validate_telemetry defaultEngine
      { p1 := some (mkRat 7 2), p2 := some (mkRat 16 5), c_src := some 150,
        c_dst := some 250, em := some 0 } = (true, []) ∧
    (validate_telemetry defaultEngine
      { p1 := some (mkRat 15 2), p2 := some (mkRat 13 2), c_src := some 150,
        c_dst := some 250, em := some 0 }).1 = false ∧
    (validate_telemetry defaultEngine
      { p1 := some (mkRat 15 2), p2 := some (mkRat 13 2), c_src := some 150,
        c_dst := some 250, em := some 0 }).2.countP
      (fun v => v == msgP1 defaultEngine (mkRat 15 2)) = 1 ∧
    (validate_telemetry defaultEngine
      { p1 := some (mkRat 15 2), p2 := some (mkRat 13 2), c_src := some 150,
        c_dst := some 250, em := some 0 }).2.countP
      (fun v => v == msgP2 defaultEngine (mkRat 13 2)) = 1 := by
  have hsafe := (C1_validate_telemetry_correct defaultEngine
    { p1 := some (mkRat 7 2), p2 := some (mkRat 16 5), c_src := some 150,
      c_dst := some 250, em := some 0 }).2.2.1
    (by decide) (by decide) (by decide) (by decide)
  have hbr := (C1_validate_telemetry_correct defaultEngine
    { p1 := some (mkRat 15 2), p2 := some (mkRat 13 2), c_src := some 150,
      c_dst := some 250, em := some 0 }).2.2.2 (by decide)
  exact ⟨hsafe, hbr.1, hbr.2.1, (hbr.2.2.2 (by decide)).1⟩

/-! ## Claim C2 -/

theorem safety_violations_ne_emergency (x : String) :
    "Safety violations: " ++ x ≠ "System in emergency mode" :=
  strAppend_ne_lit _ _ _ (by decide) (by decide)

theorem source_low_ne_emergency (x : String) :
    "Source concentration too low: " ++ x ≠ "System in emergency mode" :=
  strAppend_ne_short _ _ _ (by decide)

theorem dst_high_ne_emergency (x : String) :
    "Destination concentration too high: " ++ x ≠
      "System in emergency mode" :=
  strAppend_ne_short _ _ _ (by decide)

/-- Claim C2: `can_open_valve` applies its checks short-circuited in the
fixed order emergency flag, overall safety, minimum source
concentration, maximum destination concentration, and returns the first
failing reason; the emergency rejection holds regardless of every other
field, and its reason mentions emergency mode. -/
theorem C2_can_open_valve_correct (e : RulesEngine) (tl : Telemetry) :
    (tl.em.getD 0 = 1 →
      can_open_valve e tl = (false, "System in emergency mode")) ∧
    (tl.em.getD 0 ≠ 1 → (validate_telemetry e tl).1 = false →
      can_open_valve e tl =
        (false, "Safety violations: " ++
          String.intercalate "; " (validate_telemetry e tl).2)) ∧
    (tl.em.getD 0 ≠ 1 → (validate_telemetry e tl).1 = true →
      tl.c_src.getD 0 < e.min_src_concentration →
      can_open_valve e tl = (false, "Source concentration too low: " ++
        (numStr (tl.c_src.getD 0) ++
          (" < " ++ numStr e.min_src_concentration)))) ∧
    (tl.em.getD 0 ≠ 1 → (validate_telemetry e tl).1 = true →
      ¬ tl.c_src.getD 0 < e.min_src_concentration →
      tl.c_dst.getD 0 > e.max_dst_concentration →
      can_open_valve e tl = (false, "Destination concentration too high: " ++
        (numStr (tl.c_dst.getD 0) ++
          (" > " ++ numStr e.max_dst_concentration)))) ∧
    (tl.em.getD 0 ≠ 1 → (validate_telemetry e tl).1 = true →
      ¬ tl.c_src.getD 0 < e.min_src_concentration →
      ¬ tl.c_dst.getD 0 > e.max_dst_concentration →
      can_open_valve e tl = (true, "All checks passed")) ∧
    containsSub "emergency" (lowerStr "System in emergency mode") = true := by
  refine ⟨?_, ?_, ?_, ?_, ?_, by decide⟩
  · intro hem
    simp [can_open_valve, hem]
  · intro hem hv
    simp [can_open_valve, hem, hv]
  · intro hem hv hlow
    simp [can_open_valve, hem, hv, hlow]
  · intro hem hv hlow hhigh
    simp [can_open_valve, hem, hv, hlow, hhigh]
  · intro hem hv hlow hhigh
    simp [can_open_valve, hem, hv, hlow, hhigh]

/-- Concrete instantiation of `C2_can_open_valve_correct`: the sample of
the spec's emergency test (p1 = 0, c_src = 200, em = 1) is rejected with
the emergency reason, and the nominal sample (em = 0, p1 = 3.5,
p2 = 3.2, c_src = 150, c_dst = 250) is allowed. -/
theorem C2_can_open_valve_correct_witness :
    can_open_valve defaultEngine
      { p1 := some 0, p2 := some 0, c_src := some 200, c_dst := some 0,
        em := some 1 } = (false, "System in emergency mode") ∧
    can_open_valve defaultEngine
      { p1 := some (mkRat 7 2), p2 := some (mkRat 16 5), c_src := some 150,
        c_dst := some 250, em := some 0 } = (true, "All checks passed") :=
  ⟨(C2_can_open_valve_correct defaultEngine
      { p1 := some 0, p2 := some 0, c_src := some 200, c_dst := some 0,
        em := some 1 }).1 (by decide),
   (C2_can_open_valve_correct defaultEngine
      { p1 := some (mkRat 7 2), p2 := some (mkRat 16 5), c_src := some 150,
        c_dst := some 250, em := some 0 }).2.2.2.2.1
      (by decide) (by decide) (by decide) (by decide)⟩

/-! ## Claim C8 -/

/-- Claim C8: `get_alert_priority` returns CRITICAL iff the violation
type contains one of the substrings "pressure", "critical" or
"emergency" case-insensitively, and HIGH otherwise. -/
theorem C8_get_alert_priority_correct (s : String) :
    (get_alert_priority s = "CRITICAL" ↔
      (containsSub (lowerStr "pressure") (lowerStr s) = true ∨
       containsSub (lowerStr "critical") (lowerStr s) = true ∨
       containsSub (lowerStr "emergency") (lowerStr s) = true)) ∧
    (get_alert_priority s = "HIGH" ↔
      ¬ (containsSub (lowerStr "pressure") (lowerStr s) = true ∨
         containsSub (lowerStr "critical") (lowerStr s) = true ∨
         containsSub (lowerStr "emergency") (lowerStr s) = true)) := by
  by_cases hp : containsSub (lowerStr "pressure") (lowerStr s) = true <;>
    by_cases hc : containsSub (lowerStr "critical") (lowerStr s) = true <;>
      by_cases he : containsSub (lowerStr "emergency") (lowerStr s) = true <;>
        simp [get_alert_priority, hp, hc, he]

/-- Concrete instantiation of `C8_get_alert_priority_correct` at the
violation types exercised by the repository's own test-suite. -/
theorem C8_get_alert_priority_correct_witness :
    get_alert_priority "pressure_high" = "CRITICAL" ∧
    get_alert_priority "EMER_emergency" = "CRITICAL" ∧
    get_alert_priority "valve_timeout" = "HIGH" :=
  ⟨(C8_get_alert_priority_correct "pressure_high").1.mpr (by decide),
   (C8_get_alert_priority_correct "EMER_emergency").1.mpr (by decide),
   (C8_get_alert_priority_correct "valve_timeout").2.mpr (by decide)⟩

/-! ## Claim C9 -/

/-- The same telemetry dictionary with every absent key replaced by an
explicit value 0 (the default of every `telemetry.get(key, 0)` read). -/
def fillDefaults (tl : Telemetry) : Telemetry :=
  { p1 := some (tl.p1.getD 0)
    p2 := some (tl.p2.getD 0)
    c_src := some (tl.c_src.getD 0)
    c_dst := some (tl.c_dst.getD 0)
    em := some (tl.em.getD 0) }

/-- Claim C9: every absent metric is treated as the value 0 by both
evaluation operations; the all-fields-missing sample is safe with zero
violations for `validate_telemetry` yet rejected by `can_open_valve`
through the minimum-source-concentration check (0 < 10); and the
emergency rejection fires exactly when the `em` field defaults-or-equals
1, so an absent `em` is treated as not-in-emergency. -/
theorem C9_missing_fields_default_zero (e : RulesEngine) (tl : Telemetry) :
    validate_telemetry e tl = validate_telemetry e (fillDefaults tl) ∧
    can_open_valve e tl = can_open_valve e (fillDefaults tl) ∧
    validate_telemetry defaultEngine emptyTelemetry = (true, []) ∧
    can_open_valve defaultEngine emptyTelemetry =
      (false, "Source concentration too low: " ++
        (numStr 0 ++ (" < " ++ numStr defaultEngine.min_src_concentration))) ∧
    (tl.em.getD 0 = 1 →
      can_open_valve e tl = (false, "System in emergency mode")) ∧
    (tl.em.getD 0 ≠ 1 →
      (can_open_valve e tl).2 ≠ "System in emergency mode") := by
  obtain ⟨p1, p2, cs, cd, em⟩ := tl
  refine ⟨?_, ?_, by decide, by decide, ?_, ?_⟩
  · cases p1 <;> cases p2 <;> cases cs <;> cases cd <;> cases em <;> rfl
  · cases p1 <;> cases p2 <;> cases cs <;> cases cd <;> cases em <;> rfl
  · intro hem
    simp [can_open_valve, hem]
  · intro hem
    simp only [can_open_valve]
    rw [if_neg hem]
    split_ifs with h1 h2 h3
    · exact safety_violations_ne_emergency _
    · exact source_low_ne_emergency _
    · exact dst_high_ne_emergency _
    · decide

/-- Concrete instantiation of `C9_missing_fields_default_zero` at the
all-fields-missing sample and at a sample whose `em` field is 2. -/
theorem C9_missing_fields_default_zero_witness :
    can_open_valve defaultEngine emptyTelemetry =
      can_open_valve defaultEngine (fillDefaults emptyTelemetry) ∧
    (can_open_valve defaultEngine
      { p1 := some 0, p2 := some 0, c_src := some 0, c_dst := some 0,
        em := some 2 }).2 ≠ "System in emergency mode" :=
  ⟨(C9_missing_fields_default_zero defaultEngine emptyTelemetry).2.1,
   (C9_missing_fields_default_zero defaultEngine
      { p1 := some 0, p2 := some 0, c_src := some 0, c_dst := some 0,
        em := some 2 }).2.2.2.2.2 (by decide)⟩

/-! ## Claim C3: `SerialManager.send_command` response selection -/

/-- The response-collection loop of `SerialManager.send_command`
(lines 134-156), abstracted over the transcript of decoded lines that
arrive before the timeout, in arrival order.  Empty decoded lines are
skipped by the `if response:` guard; every other line is appended to
`lines_received` and returned at once unless it is a
`COMMAND_RECEIVED:` echo; when the timeout expires the last collected
line, if any, is returned. -/
def send_command_loop (acc : List String) : List String → Option String
  | [] => acc.getLast?
  | l :: ls =>
    if l == "" then send_command_loop acc ls
    else if strStartsWith l "COMMAND_RECEIVED:" then
      send_command_loop (acc ++ [l]) ls
    else some l

/-- `SerialManager.send_command` applied to a transcript of received
lines (the connected, post-write part of the call). -/
def send_command_response (transcript : List String) : Option String :=
  send_command_loop [] transcript

/-- Specification-side description of the same selection: the first
non-echo line if one arrives, else the last line received, else none. -/
def first_non_echo_or_last (lines : List String) : Option String :=
  match lines.find? (fun l => !(strStartsWith l "COMMAND_RECEIVED:")) with
  | some r => some r
  | none => lines.getLast?

theorem send_command_loop_eq (ls : List String) :
    ∀ acc, (∀ l ∈ ls, l ≠ "") →
      send_command_loop acc ls =
        match ls.find? (fun l => !(strStartsWith l "COMMAND_RECEIVED:")) with
        | some r => some r
        | none => (acc ++ ls).getLast? := by
  induction ls with
  | nil => intro acc _; simp [send_command_loop]
  | cons l ls ih =>
    intro acc h
    have hl : (l == "") = false :=
      beq_eq_false_iff_ne.mpr (h l (List.mem_cons_self l ls))
    have hrest : ∀ x ∈ ls, x ≠ "" := fun x hx => h x (List.mem_cons_of_mem l hx)
    by_cases he : strStartsWith l "COMMAND_RECEIVED:" = true
    · rw [send_command_loop]
      rw [if_neg (by simp [hl]), if_pos he, ih (acc ++ [l]) hrest]
      simp [List.find?, he]
    · have he' : strStartsWith l "COMMAND_RECEIVED:" = false := by
        simpa using he
      rw [send_command_loop]
      rw [if_neg (by simp [hl]), if_neg (by simp [he'])]
      simp [List.find?, he']

/-- Claim C3: over a transcript of (non-empty) lines arriving before the
timeout, `send_command` skips exactly the `COMMAND_RECEIVED` echo lines
and returns the first non-echo line; if only echo lines arrive it
returns the last received line; if no line arrives it returns none —
together with the spec's three concrete transcripts. -/
theorem C3_send_command_response_correct (lines : List String)
    (h : ∀ l ∈ lines, l ≠ "") :
    send_command_response lines = first_non_echo_or_last lines ∧
    send_command_response ["COMMAND_RECEIVED:OPEN", "VALVE_OPENED"] =
      some "VALVE_OPENED" ∧
    send_command_response ["COMMAND_RECEIVED:OPEN"] =
      some "COMMAND_RECEIVED:OPEN" ∧
    send_command_response [] = none := by
  refine ⟨?_, by decide, by decide, rfl⟩
  unfold send_command_response first_non_echo_or_last
  rw [send_command_loop_eq lines [] h]
  rfl

/-- Concrete instantiation of `C3_send_command_response_correct` at the
echo-then-response transcript. -/
theorem C3_send_command_response_correct_witness :
    send_command_response ["COMMAND_RECEIVED:OPEN", "VALVE_OPENED"] =
      first_non_echo_or_last ["COMMAND_RECEIVED:OPEN", "VALVE_OPENED"] :=
  (C3_send_command_response_correct
    ["COMMAND_RECEIVED:OPEN", "VALVE_OPENED"] (by decide)).1

/-! ## Claim C7: `ConnectionManager.broadcast` (`ws_manager.py`) -/

/-- The delivery sweep of `ConnectionManager.broadcast` (lines 49-56):
iterate over the snapshot of registered subscribers, attempt delivery to
each, and collect the ones whose send fails.  Subscribers are modelled
by identifiers; `fails c = true` means delivery to `c` raises.  Returns
(subscribers that received the event, subscribers collected as
disconnected). -/
def broadcast_sweep (fails : Nat → Bool) : List Nat → List Nat × List Nat
  | [] => ([], [])
  | c :: cs =>
    let r := broadcast_sweep fails cs
    if fails c then (r.1, c :: r.2) else (c :: r.1, r.2)

/-- `ConnectionManager.broadcast` (lines 39-62): early return on an
empty subscriber set; otherwise run the sweep over the snapshot and then
remove the collected disconnected subscribers from the registered set.
Returns (delivered-to subscribers, registered set after the call). -/
def broadcast (fails : Nat → Bool) (conns : List Nat) :
    List Nat × List Nat :=
  if conns.isEmpty then ([], conns)
  else
    let s := broadcast_sweep fails conns
    (s.1, conns.filter (fun c => !(s.2.contains c)))

/-- `ConnectionManager.get_connection_count` (lines 88-90). -/
def get_connection_count (conns : List Nat) : Nat :=
  conns.length

theorem broadcast_sweep_eq (fails : Nat → Bool) (l : List Nat) :
    broadcast_sweep fails l =
      (l.filter (fun c => !fails c), l.filter fails) := by
  induction l with
  | nil => rfl
  | cons c cs ih =>
    by_cases h : fails c = true <;>
      simp [broadcast_sweep, ih, List.filter_cons, h]

theorem broadcast_new_eq (fails : Nat → Bool) (conns : List Nat) :
    (broadcast fails conns).2 = conns.filter (fun c => !fails c) := by
  by_cases hempty : conns.isEmpty = true
  · rw [List.isEmpty_iff] at hempty
    subst hempty
    rfl
  · unfold broadcast
    rw [if_neg (by simp [hempty]), broadcast_sweep_eq]
    refine List.filter_congr ?_
    intro c hc
    simp only [List.elem_eq_mem, decide_eq_true_eq]
    by_cases hf : fails c = true
    · simp [hf, List.mem_filter, hc]
    · simp [hf, List.mem_filter]

theorem length_filter_not_eq (p : Nat → Bool) (l : List Nat) :
    (l.filter (fun c => !p c)).length = l.length - (l.filter p).length := by
  induction l with
  | nil => rfl
  | cons c cs ih =>
    have hle : (cs.filter p).length ≤ cs.length := List.length_filter_le p cs
    by_cases h : p c = true
    · simp [List.filter_cons, h, ih]
    · simp [List.filter_cons, h, ih]
      omega

/-- Claim C7: a broadcast delivers the event to every registered
subscriber whose delivery does not fail (and only to registered,
non-failing ones), removes exactly the failing subscribers from the
registered set once the sweep completes, and the subsequent connection
count equals the previous count minus the number of failing
subscribers; a partial failure never drops the whole event. -/
theorem C7_broadcast_partial_failure (fails : Nat → Bool)
    (conns : List Nat) :
    (∀ c, c ∈ conns → fails c = false → c ∈ (broadcast fails conns).1) ∧
    (∀ c, c ∈ (broadcast fails conns).1 → c ∈ conns ∧ fails c = false) ∧
    (∀ c, c ∈ (broadcast fails conns).2 ↔ c ∈ conns ∧ fails c = false) ∧
    get_connection_count (broadcast fails conns).2 =
      get_connection_count conns - (conns.filter fails).length := by
  have hdelivered : (broadcast fails conns).1 =
      conns.filter (fun c => !fails c) := by
    by_cases hempty : conns.isEmpty = true
    · rw [List.isEmpty_iff] at hempty
      subst hempty
      rfl
    · unfold broadcast
      rw [if_neg (by simp [hempty]), broadcast_sweep_eq]
  refine ⟨?_, ?_, ?_, ?_⟩
  · intro c hc hf
    rw [hdelivered]
    simp [List.mem_filter, hc, hf]
  · intro c hc
    rw [hdelivered] at hc
    simp only [List.mem_filter, Bool.not_eq_true'] at hc
    exact hc
  · intro c
    rw [broadcast_new_eq]
    simp [List.mem_filter]
  · rw [broadcast_new_eq]
    unfold get_connection_count
    exact length_filter_not_eq fails conns

/-- Concrete instantiation of `C7_broadcast_partial_failure`: three
subscribers of which exactly subscriber 2 fails — 1 and 3 still receive
the event and the count afterwards is 2. -/
theorem C7_broadcast_partial_failure_witness :
    1 ∈ (broadcast (fun c => c == 2) [1, 2, 3]).1 ∧
    3 ∈ (broadcast (fun c => c == 2) [1, 2, 3]).1 ∧
    get_connection_count (broadcast (fun c => c == 2) [1, 2, 3]).2 = 2 := by
  have h := C7_broadcast_partial_failure (fun c => c == 2) [1, 2, 3]
  exact ⟨h.1 1 (by decide) (by decide), h.1 3 (by decide) (by decide),
    h.2.2.2.trans (by decide)⟩

/-! ## Valve command endpoints (`backend/app/api/valve.py`) -/

/-- The `result` column written by `log_operation` for a command. -/
inductive CmdOutcome where
  | SUCCESS
  | FAILED
  | REJECTED
  | UNKNOWN
deriving DecidableEq

/-- The `ValveCommandResponse` schema returned by every endpoint. -/
structure ValveCommandResponse where
  success : Bool
  message : String
  valve_state : Option String
deriving DecidableEq

/-- Either a normal response or a raised `HTTPException`. -/
inductive ApiResult where
  | ok (r : ValveCommandResponse)
  | httpError (code : Nat) (detail : String)
deriving DecidableEq

/-- One `log_operation` record: (command, result, message). -/
structure LogEntry where
  command : String
  result : CmdOutcome
  message : Option String
deriving DecidableEq

/-- The state an endpoint observes: whether `serial_manager.is_connected()`
holds, and the device's reply to each command as returned by
`send_command` (`none` models a timeout / no response; `send_command`
never returns an empty string, since only non-empty lines are
collected). -/
structure SerialState where
  connected : Bool
  respond : String → Option String

/-- `open_valve` (valve.py lines 43-90): connectivity gate, OPEN
round-trip, then response classification.  Returns the HTTP result, the
list of commands actually sent to the device, and the operation log. -/
def open_valve (st : SerialState) :
    ApiResult × List String × List LogEntry :=
  if st.connected = false then
    (.httpError 503 "Arduino not connected", [],
      [⟨"OPEN", .FAILED, some "Arduino not connected"⟩])
  else
    match st.respond "OPEN" with
    | none =>
      (.httpError 503 "No response from Arduino", ["OPEN"],
        [⟨"OPEN", .FAILED, some "No response from Arduino"⟩])
    | some response =>
      if containsSub "VALVE_OPENED" response then
        (.ok ⟨true, "Valve opened successfully", some "OPEN"⟩, ["OPEN"],
          [⟨"OPEN", .SUCCESS, some "Valve opened successfully"⟩])
      else if containsSub "ERROR" response ||
          containsSub "emergency" (lowerStr response) then
        (.ok ⟨false, response, none⟩, ["OPEN"],
          [⟨"OPEN", .REJECTED, some response⟩])
      else
        (.ok ⟨false, "Unexpected response: " ++ response, none⟩, ["OPEN"],
          [⟨"OPEN", .UNKNOWN, some response⟩])

/-- `close_valve` (valve.py lines 93-128). -/
def close_valve (st : SerialState) :
    ApiResult × List String × List LogEntry :=
  if st.connected = false then
    (.httpError 503 "Arduino not connected", [],
      [⟨"CLOSE", .FAILED, some "Arduino not connected"⟩])
  else
    match st.respond "CLOSE" with
    | none =>
      (.httpError 503 "No response from Arduino", ["CLOSE"],
        [⟨"CLOSE", .FAILED, some "No response from Arduino"⟩])
    | some response =>
      if containsSub "VALVE_CLOSED" response ||
          containsSub "ALREADY_CLOSED" response then
        (.ok ⟨true, "Valve closed successfully", some "CLOSED"⟩, ["CLOSE"],
          [⟨"CLOSE", .SUCCESS, some "Valve closed successfully"⟩])
      else
        (.ok ⟨false, "Unexpected response: " ++ response, none⟩, ["CLOSE"],
          [⟨"CLOSE", .UNKNOWN, some response⟩])

/-- `force_open_valve` (valve.py lines 131-176). -/
def force_open_valve (st : SerialState) :
    ApiResult × List String × List LogEntry :=
  if st.connected = false then
    (.httpError 503 "Arduino not connected", [],
      [⟨"FORCE_OPEN", .FAILED, some "Arduino not connected"⟩])
  else
    match st.respond "FORCE_OPEN" with
    | none =>
      (.httpError 503 "No response from Arduino", ["FORCE_OPEN"],
        [⟨"FORCE_OPEN", .FAILED, some "No response from Arduino"⟩])
    | some response =>
      if containsSub "VALVE_OPENED" response then
        (.ok ⟨true, "Valve force-opened (bypassed safety)", some "OPEN"⟩,
          ["FORCE_OPEN"], [⟨"FORCE_OPEN", .SUCCESS, some "Valve force-opened"⟩])
      else
        (.ok ⟨false, response, none⟩, ["FORCE_OPEN"],
          [⟨"FORCE_OPEN", .FAILED, some response⟩])

/-- `reset_emergency` (valve.py lines 179-213). -/
def reset_emergency (st : SerialState) :
    ApiResult × List String × List LogEntry :=
  if st.connected = false then
    (.httpError 503 "Arduino not connected", [],
      [⟨"RESET_EMERGENCY", .FAILED, some "Arduino not connected"⟩])
  else
    match st.respond "RESET_EMERGENCY" with
    | none =>
      (.httpError 503 "No response from Arduino", ["RESET_EMERGENCY"],
        [⟨"RESET_EMERGENCY", .FAILED, some "No response from Arduino"⟩])
    | some response =>
      if containsSub "reset successfully" (lowerStr response) ||
          containsSub "EVENT" response then
        (.ok ⟨true, "Emergency mode reset successfully", none⟩,
          ["RESET_EMERGENCY"],
          [⟨"RESET_EMERGENCY", .SUCCESS, some "Emergency mode reset"⟩])
      else
        (.ok ⟨false, response, none⟩, ["RESET_EMERGENCY"],
          [⟨"RESET_EMERGENCY", .UNKNOWN, some response⟩])

/-- `enable_test_mode` (valve.py lines 216-241); the connectivity and
no-response failures raise without a `log_operation` record. -/
def enable_test_mode (st : SerialState) :
    ApiResult × List String × List LogEntry :=
  if st.connected = false then
    (.httpError 503 "Arduino not connected", [], [])
  else
    match st.respond "TEST_MODE_ON" with
    | none => (.httpError 503 "No response from Arduino", ["TEST_MODE_ON"], [])
    | some _ =>
      (.ok ⟨true, "Test mode enabled - using mock sensor values", none⟩,
        ["TEST_MODE_ON"], [⟨"TEST_MODE_ON", .SUCCESS, some "Test mode enabled"⟩])

/-- `disable_test_mode` (valve.py lines 244-268). -/
def disable_test_mode (st : SerialState) :
    ApiResult × List String × List LogEntry :=
  if st.connected = false then
    (.httpError 503 "Arduino not connected", [], [])
  else
    match st.respond "TEST_MODE_OFF" with
    | none => (.httpError 503 "No response from Arduino", ["TEST_MODE_OFF"], [])
    | some _ =>
      (.ok ⟨true, "Test mode disabled - using real sensor values", none⟩,
        ["TEST_MODE_OFF"],
        [⟨"TEST_MODE_OFF", .SUCCESS, some "Test mode disabled"⟩])

/-- A connected device state that answers exactly one command. -/
def oneCmdState (cmd resp : String) : SerialState :=
  { connected := true
    respond := fun c => if c == cmd then some resp else none }

/-! ## Claim C6 -/

/-- Claim C6: every command-issuance endpoint, when the device link does
not report connected, fails immediately with the distinguishable
"Arduino not connected" 503 outcome and sends no command to the device. -/
theorem C6_disconnected_no_roundtrip (st : SerialState)
    (h : st.connected = false) :
    (open_valve st).1 = .httpError 503 "Arduino not connected" ∧
    (open_valve st).2.1 = [] ∧
    (close_valve st).1 = .httpError 503 "Arduino not connected" ∧
    (close_valve st).2.1 = [] ∧
    (force_open_valve st).1 = .httpError 503 "Arduino not connected" ∧
    (force_open_valve st).2.1 = [] ∧
    (reset_emergency st).1 = .httpError 503 "Arduino not connected" ∧
    (reset_emergency st).2.1 = [] ∧
    (enable_test_mode st).1 = .httpError 503 "Arduino not connected" ∧
    (enable_test_mode st).2.1 = [] ∧
    (disable_test_mode st).1 = .httpError 503 "Arduino not connected" ∧
    (disable_test_mode st).2.1 = [] := by
  refine ⟨?_, ?_, ?_, ?_, ?_, ?_, ?_, ?_, ?_, ?_, ?_, ?_⟩ <;>
    simp [open_valve, close_valve, force_open_valve, reset_emergency,
      enable_test_mode, disable_test_mode, h]

/-- Concrete instantiation of `C6_disconnected_no_roundtrip` at a
disconnected state. -/
theorem C6_disconnected_no_roundtrip_witness :
    (open_valve { connected := false, respond := fun _ => none }).1 =
      .httpError 503 "Arduino not connected" ∧
    (open_valve { connected := false, respond := fun _ => none }).2.1 = [] :=
  have h := C6_disconnected_no_roundtrip
    { connected := false, respond := fun _ => none } rfl
  ⟨h.1, h.2.1⟩

/-! ## Claim C5 -/

/-- Claim C5 (amended): response classification for the valve commands,
with the checks applied in the order of the code's if/elif chains — for
OPEN: a response containing "VALVE_OPENED" is SUCCESS with valve state
OPEN; otherwise one containing "ERROR" or (case-insensitively)
"emergency" is REJECTED; otherwise UNKNOWN.  For CLOSE: a response
containing "VALVE_CLOSED" or "ALREADY_CLOSED" is SUCCESS with valve
state CLOSED (which covers "VALVE_ALREADY_CLOSED"); a response
containing neither marker is UNKNOWN. -/
theorem C5_response_classification (st : SerialState) (r : String)
    (hconn : st.connected = true) :
    (st.respond "OPEN" = some r →
      (containsSub "VALVE_OPENED" r = true →
        open_valve st =
          (.ok ⟨true, "Valve opened successfully", some "OPEN"⟩, ["OPEN"],
            [⟨"OPEN", .SUCCESS, some "Valve opened successfully"⟩])) ∧
      (containsSub "VALVE_OPENED" r = false →
        (containsSub "ERROR" r || containsSub "emergency" (lowerStr r)) =
          true →
        open_valve st = (.ok ⟨false, r, none⟩, ["OPEN"],
          [⟨"OPEN", .REJECTED, some r⟩])) ∧
      (containsSub "VALVE_OPENED" r = false →
        (containsSub "ERROR" r || containsSub "emergency" (lowerStr r)) =
          false →
        open_valve st = (.ok ⟨false, "Unexpected response: " ++ r, none⟩,
          ["OPEN"], [⟨"OPEN", .UNKNOWN, some r⟩]))) ∧
    (st.respond "CLOSE" = some r →
      ((containsSub "VALVE_CLOSED" r || containsSub "ALREADY_CLOSED" r) =
          true →
        close_valve st =
          (.ok ⟨true, "Valve closed successfully", some "CLOSED"⟩, ["CLOSE"],
            [⟨"CLOSE", .SUCCESS, some "Valve closed successfully"⟩])) ∧
      ((containsSub "VALVE_CLOSED" r || containsSub "ALREADY_CLOSED" r) =
          false →
        close_valve st = (.ok ⟨false, "Unexpected response: " ++ r, none⟩,
          ["CLOSE"], [⟨"CLOSE", .UNKNOWN, some r⟩]))) ∧
    open_valve (oneCmdState "OPEN" "VALVE_OPENED") =
      (.ok ⟨true, "Valve opened successfully", some "OPEN"⟩, ["OPEN"],
        [⟨"OPEN", .SUCCESS, some "Valve opened successfully"⟩]) ∧
    open_valve (oneCmdState "OPEN" "ERROR: Overpressure") =
      (.ok ⟨false, "ERROR: Overpressure", none⟩, ["OPEN"],
        [⟨"OPEN", .REJECTED, some "ERROR: Overpressure"⟩]) ∧
    open_valve (oneCmdState "OPEN" "BOOT") =
      (.ok ⟨false, "Unexpected response: BOOT", none⟩, ["OPEN"],
        [⟨"OPEN", .UNKNOWN, some "BOOT"⟩]) ∧
    close_valve (oneCmdState "CLOSE" "VALVE_CLOSED") =
      (.ok ⟨true, "Valve closed successfully", some "CLOSED"⟩, ["CLOSE"],
        [⟨"CLOSE", .SUCCESS, some "Valve closed successfully"⟩]) ∧
    close_valve (oneCmdState "CLOSE" "VALVE_ALREADY_CLOSED") =
      (.ok ⟨true, "Valve closed successfully", some "CLOSED"⟩, ["CLOSE"],
        [⟨"CLOSE", .SUCCESS, some "Valve closed successfully"⟩]) ∧
    close_valve (oneCmdState "CLOSE" "BOOT") =
      (.ok ⟨false, "Unexpected response: BOOT", none⟩, ["CLOSE"],
        [⟨"CLOSE", .UNKNOWN, some "BOOT"⟩]) := by
  refine ⟨?_, ?_, by decide, by decide, by decide, by decide, by decide,
    by decide⟩
  · intro hresp
    refine ⟨?_, ?_, ?_⟩
    · intro h1
      simp [open_valve, hconn, hresp, h1]
    · intro h1 h2
      simp [open_valve, hconn, hresp, h1, h2]
    · intro h1 h2
      simp [open_valve, hconn, hresp, h1, h2]
  · intro hresp
    refine ⟨?_, ?_⟩
    · intro h1
      simp [close_valve, hconn, hresp, h1]
    · intro h1
      simp [close_valve, hconn, hresp, h1]

/-- Concrete instantiation of `C5_response_classification` at the
success and rejection responses of the OPEN command. -/
theorem C5_response_classification_witness :
    open_valve (oneCmdState "OPEN" "VALVE_OPENED") =
      (.ok ⟨true, "Valve opened successfully", some "OPEN"⟩, ["OPEN"],
        [⟨"OPEN", .SUCCESS, some "Valve opened successfully"⟩]) ∧
    open_valve (oneCmdState "OPEN" "ERROR: Overpressure") =
      (.ok ⟨false, "ERROR: Overpressure", none⟩, ["OPEN"],
        [⟨"OPEN", .REJECTED, some "ERROR: Overpressure"⟩]) :=
  have h := C5_response_classification (oneCmdState "OPEN" "VALVE_OPENED")
    "VALVE_OPENED" rfl
  ⟨(h.1 (by decide)).1 (by decide), h.2.2.2.1⟩

/-- Counterexample to claim C5 as stated: for the CLOSE command the
claim names the success markers "VALVE_CLOSED" and
"VALVE_ALREADY_CLOSED" and classifies every other response UNKNOWN; but
the code's second marker is the substring "ALREADY_CLOSED", so the
response "ALREADY_CLOSED" — which contains neither of the claim's
markers — is classified SUCCESS/CLOSED, not UNKNOWN. -/
theorem C5_close_marker_counterexample :
    close_valve (oneCmdState "CLOSE" "ALREADY_CLOSED") =
      (.ok ⟨true, "Valve closed successfully", some "CLOSED"⟩, ["CLOSE"],
        [⟨"CLOSE", .SUCCESS, some "Valve closed successfully"⟩]) ∧
    containsSub "VALVE_CLOSED" "ALREADY_CLOSED" = false ∧
    containsSub "VALVE_ALREADY_CLOSED" "ALREADY_CLOSED" = false := by
  decide

/-! ## Telemetry parsing (`SerialManager.parse_telemetry`, lines 162-183)

The JSON decoding performed by `json.loads` is modelled by a concrete
parser restricted to the shape every telemetry payload has in this
system: one flat object whose values are (unescaped) strings or decimal
numbers.  Any other input — including the malformed payloads the claims
exercise — yields `none`, exactly as `json.loads` raising
`JSONDecodeError` is caught and turned into a `None` return. -/

/-- A JSON value of a telemetry record: a string or a number (numbers
are exact rationals, covering both ints and decimal floats). -/
inductive JsonVal where
  | str (s : String)
  | num (q : ℚ)
deriving DecidableEq

/-- Skip JSON whitespace. -/
def skipWs (l : List Char) : List Char :=
  l.dropWhile (fun c => c == ' ' || c == '\t' || c == '\n' || c == '\r')

/-- Parse the body of a JSON string after the opening quote, up to the
closing quote.  Escape sequences are not used by any telemetry payload
and are rejected. -/
def parseStringBody : List Char → Option (String × List Char)
  | [] => none
  | c :: cs =>
    if c == '"' then some ("", cs)
    else if c == '\\' then none
    else
      match parseStringBody cs with
      | some (s, rest) => some (String.mk (c :: s.toList), rest)
      | none => none

/-- Numeric value of a decimal digit character. -/
def digitVal (c : Char) : Nat :=
  c.toNat - 48

/-- Value of a non-empty digit sequence. -/
def digitsToNat (l : List Char) : Nat :=
  l.foldl (fun a c => a * 10 + digitVal c) 0

/-- Parse a JSON number: optional minus sign, integer digits, optional
fractional digits.  The result is the exact rational value. -/
def parseNumber (l : List Char) : Option (ℚ × List Char) :=
  let signSplit : Bool × List Char :=
    match l with
    | '-' :: cs => (true, cs)
    | _ => (false, l)
  let neg := signSplit.1
  let intSplit := signSplit.2.span Char.isDigit
  if intSplit.1.isEmpty then none
  else
    match intSplit.2 with
    | '.' :: cs =>
      let fracSplit := cs.span Char.isDigit
      if fracSplit.1.isEmpty then none
      else
        let k := fracSplit.1.length
        let numer : Int :=
          (digitsToNat intSplit.1 * 10 ^ k + digitsToNat fracSplit.1 : Nat)
        some (mkRat (if neg then -numer else numer) (10 ^ k), fracSplit.2)
    | rest =>
      let numer : Int := (digitsToNat intSplit.1 : Nat)
      some (mkRat (if neg then -numer else numer) 1, rest)

/-- Parse one member value: a string or a number. -/
def parseValue (l : List Char) : Option (JsonVal × List Char) :=
  match l with
  | '"' :: cs => (parseStringBody cs).map (fun p => (JsonVal.str p.1, p.2))
  | _ => (parseNumber l).map (fun p => (JsonVal.num p.1, p.2))

/-- Parse the members of a JSON object after the opening brace, up to
and including the closing brace.  `fuel` bounds the recursion; each
member consumes at least one character, so any fuel of at least the
input length suffices. -/
def parseMembers : Nat → List Char → Option (List (String × JsonVal) × List Char)
  | 0, _ => none
  | fuel + 1, l =>
    match skipWs l with
    | '"' :: cs =>
      match parseStringBody cs with
      | none => none
      | some (key, rest1) =>
        match skipWs rest1 with
        | ':' :: rest2 =>
          match parseValue (skipWs rest2) with
          | none => none
          | some (v, rest3) =>
            match skipWs rest3 with
            | ',' :: rest4 =>
              match parseMembers fuel rest4 with
              | none => none
              | some (ms, rest5) => some ((key, v) :: ms, rest5)
            | '}' :: rest4 => some ([(key, v)], rest4)
            | _ => none
        | _ => none
    | _ => none

/-- Parse one whole JSON object (with nothing but whitespace allowed
after it), returning its member list in source order. -/
def parse_json_object (s : String) : Option (List (String × JsonVal)) :=
  match skipWs s.toList with
  | '{' :: cs =>
    match skipWs cs with
    | '}' :: rest => if (skipWs rest).isEmpty then some [] else none
    | _ =>
      match parseMembers (cs.length + 1) cs with
      | none => none
      | some (ms, rest) => if (skipWs rest).isEmpty then some ms else none
  | _ => none

/-- Insert into a Python dict modelled as an association list: an
existing key keeps its position and gets the new value, a new key is
appended. -/
def dictInsert (d : List (String × JsonVal)) (k : String) (v : JsonVal) :
    List (String × JsonVal) :=
  if d.any (fun p => p.1 == k) then
    d.map (fun p => if p.1 == k then (k, v) else p)
  else d ++ [(k, v)]

/-- Build the dict produced by `json.loads` from the parsed member
list (later duplicate keys overwrite earlier ones, as in Python). -/
def dictOfPairs (ps : List (String × JsonVal)) : List (String × JsonVal) :=
  ps.foldl (fun d p => dictInsert d p.1 p.2) []

/-- Dict lookup. -/
def dictGet (d : List (String × JsonVal)) (k : String) : Option JsonVal :=
  (d.find? (fun p => p.1 == k)).map (fun p => p.2)

/-- Model of `json.loads` on telemetry payloads (restricted to one flat
object of string/number members; everything else fails, as the code
catches the resulting exception and drops the sample). -/
def json_loads (s : String) : Option (List (String × JsonVal)) :=
  (parse_json_object s).map dictOfPairs

/-- Model of Python `s.replace(needle, repl)` on character lists:
replace every non-overlapping occurrence, scanning left to right.
`fuel` bounds the recursion; `s.length` suffices since every step
consumes at least one character. -/
def pyReplaceFuel (needle repl : List Char) : Nat → List Char → List Char
  | 0, l => l
  | _ + 1, [] => []
  | fuel + 1, c :: cs =>
    if startsWithL needle (c :: cs) then
      repl ++ pyReplaceFuel needle repl fuel (cs.drop (needle.length - 1))
    else
      c :: pyReplaceFuel needle repl fuel cs

/-- Model of Python `s.replace(needle, repl)`. -/
def pyReplace (needle repl s : String) : String :=
  String.mk (pyReplaceFuel needle.toList repl.toList s.toList.length s.toList)

/-- Model of Python `s.strip()` (ASCII whitespace). -/
def pyStrip (s : String) : String :=
  String.mk
    (((s.toList.dropWhile Char.isWhitespace).reverse.dropWhile
      Char.isWhitespace).reverse)

/-- `SerialManager.parse_telemetry` (lines 162-183): reject lines
without the `TELEMETRY:` prefix; otherwise remove every occurrence of
the substring `TELEMETRY:` from the line (Python `str.replace`), strip
it, decode the JSON object, and add the current wall-clock timestamp
`now` under key `t` when absent.  A decode failure yields `none` (the
exception is caught inside the method). -/
def parse_telemetry (now : Int) (line : String) :
    Option (List (String × JsonVal)) :=
  if strStartsWith line "TELEMETRY:" = false then none
  else
    match json_loads (pyStrip (pyReplace "TELEMETRY:" "" line)) with
    | none => none
    | some data =>
      if (dictGet data "t").isNone then
        some (dictInsert data "t" (JsonVal.num (mkRat now 1)))
      else some data

/-- Specification-side parsing: identical, except that only the leading
`TELEMETRY:` prefix is stripped from the line (what the spec's "strip
the prefix" describes), rather than every occurrence of the substring. -/
def parse_telemetry_spec (now : Int) (line : String) :
    Option (List (String × JsonVal)) :=
  if strStartsWith line "TELEMETRY:" = false then none
  else
    match json_loads (pyStrip (String.mk (line.toList.drop 10))) with
    | none => none
    | some data =>
      if (dictGet data "t").isNone then
        some (dictInsert data "t" (JsonVal.num (mkRat now 1)))
      else some data

/-! ## Claim C4 -/

theorem startsWithL_self (l : List Char) :
    ∀ t, startsWithL l (l ++ t) = true := by
  induction l with
  | nil => intro t; simp [startsWithL]
  | cons c cs ih => intro t; simp [startsWithL, ih]

theorem startsWithL_split (p : List Char) :
    ∀ h, startsWithL p h = true → h = p ++ h.drop p.length := by
  induction p with
  | nil => intro h _; simp
  | cons c cs ih =>
    intro h hs
    cases h with
    | nil => simp [startsWithL] at hs
    | cons d ds =>
      simp only [startsWithL, Bool.and_eq_true, beq_iff_eq] at hs
      obtain ⟨hcd, hds⟩ := hs
      subst hcd
      simp only [List.length_cons, List.drop_succ_cons, List.cons_append,
        List.cons.injEq, true_and]
      exact ih ds hds

theorem pyReplaceFuel_no_occ (needle repl : List Char) :
    ∀ (fuel : Nat) (l : List Char), containsSubL needle l = false →
      pyReplaceFuel needle repl fuel l = l := by
  intro fuel
  induction fuel with
  | zero => intro l _; rfl
  | succ f ih =>
    intro l h
    cases l with
    | nil => rfl
    | cons c cs =>
      simp only [containsSubL, Bool.or_eq_false_iff] at h
      simp only [pyReplaceFuel, h.1, Bool.false_eq_true, if_false]
      rw [ih cs h.2]

theorem pyReplaceFuel_cons_prefix (c : Char) (ns repl : List Char)
    (fuel : Nat) (rest : List Char)
    (hno : containsSubL (c :: ns) rest = false) :
    pyReplaceFuel (c :: ns) repl (fuel + 1) ((c :: ns) ++ rest) =
      repl ++ rest := by
  have h1 : startsWithL (c :: ns) ((c :: ns) ++ rest) = true :=
    startsWithL_self (c :: ns) rest
  simp only [List.cons_append, pyReplaceFuel, List.append_eq]
  have h1' : startsWithL (c :: ns) (c :: (ns ++ rest)) = true := h1
  rw [if_pos h1']
  have h2 : (c :: ns).length - 1 = ns.length := by simp
  have h3 : List.drop ns.length (ns ++ rest) = rest := List.drop_left ns rest
  rw [h2, h3, pyReplaceFuel_no_occ (c :: ns) repl fuel rest hno]

/-- Removing every occurrence of `TELEMETRY:` from a line that starts
with it and whose remainder contains no further occurrence is the same
as stripping the leading prefix. -/
theorem pyReplace_prefix_strip (line : String)
    (hpre : strStartsWith line "TELEMETRY:" = true)
    (hno : containsSubL "TELEMETRY:".toList (line.toList.drop 10) = false) :
    pyReplace "TELEMETRY:" "" line = String.mk (line.toList.drop 10) := by
  have hlen10 : ("TELEMETRY:".toList).length = 10 := by decide
  have hsplit : line.toList =
      "TELEMETRY:".toList ++ line.toList.drop 10 := by
    have h := startsWithL_split "TELEMETRY:".toList line.toList hpre
    rwa [hlen10] at h
  unfold pyReplace
  rw [hsplit]
  congr 1
  have hlen : ("TELEMETRY:".toList ++ line.toList.drop 10).length =
      (9 + (line.toList.drop 10).length) + 1 := by
    rw [List.length_append, hlen10]
    omega
  rw [hlen]
  have hN : "TELEMETRY:".toList = 'T' :: "ELEMETRY:".toList := by decide
  rw [hN]
  exact pyReplaceFuel_cons_prefix 'T' "ELEMETRY:".toList []
    (9 + (line.toList.drop 10).length) (line.toList.drop 10)
    (by rwa [hN] at hno)

/-- Claim C4 (amended): telemetry parsing accepts only lines with the
`TELEMETRY:` prefix; the code removes every occurrence of the substring
`TELEMETRY:` from the line (Python `str.replace`), not only the leading
prefix, so whenever the remainder of the line contains no further
occurrence the result coincides with stripping the prefix and parsing
the remainder, preserving every provided field and adding the
wall-clock timestamp under `t` exactly when `t` is absent; a malformed
payload yields no sample (and, the return being total, no exception
reaches the caller). -/
theorem C4_parse_telemetry_correct (now : Int) (line : String)
    (hno : containsSubL "TELEMETRY:".toList (line.toList.drop 10) = false) :
    parse_telemetry now line = parse_telemetry_spec now line ∧
    (∀ l2 : String, strStartsWith l2 "TELEMETRY:" = false →
      parse_telemetry now l2 = none) ∧
    parse_telemetry 1700000000
      "TELEMETRY:\x7b\"valve\":\"OPEN\",\"p1\":3.5,\"p2\":3.2,\"c_src\":150.0,\"c_dst\":250.0,\"em\":0\x7d" =
      some [("valve", JsonVal.str "OPEN"), ("p1", JsonVal.num (mkRat 7 2)),
        ("p2", JsonVal.num (mkRat 16 5)), ("c_src", JsonVal.num (mkRat 150 1)),
        ("c_dst", JsonVal.num (mkRat 250 1)), ("em", JsonVal.num (mkRat 0 1)),
        ("t", JsonVal.num (mkRat 1700000000 1))] ∧
    parse_telemetry 1700000000 "TELEMETRY:\x7bbad json\x7d" = none := by
  refine ⟨?_, ?_, by decide, by decide⟩
  · by_cases hpre : strStartsWith line "TELEMETRY:" = true
    · unfold parse_telemetry parse_telemetry_spec
      rw [pyReplace_prefix_strip line hpre hno]
    · have hpre' : strStartsWith line "TELEMETRY:" = false := by
        simpa using hpre
      unfold parse_telemetry parse_telemetry_spec
      rw [hpre']
      simp
  · intro l2 h2
    unfold parse_telemetry
    rw [h2]
    simp

/-- Concrete instantiation of `C4_parse_telemetry_correct` at the
spec's well-formed telemetry line (whose payload contains no further
occurrence of the prefix). -/
theorem C4_parse_telemetry_correct_witness :
    parse_telemetry 1700000000
      "TELEMETRY:\x7b\"valve\":\"OPEN\",\"p1\":3.5,\"p2\":3.2,\"c_src\":150.0,\"c_dst\":250.0,\"em\":0\x7d" =
      parse_telemetry_spec 1700000000
        "TELEMETRY:\x7b\"valve\":\"OPEN\",\"p1\":3.5,\"p2\":3.2,\"c_src\":150.0,\"c_dst\":250.0,\"em\":0\x7d" :=
  (C4_parse_telemetry_correct 1700000000
    "TELEMETRY:\x7b\"valve\":\"OPEN\",\"p1\":3.5,\"p2\":3.2,\"c_src\":150.0,\"c_dst\":250.0,\"em\":0\x7d"
    (by decide)).1

/-- Counterexample to claim C4 as stated: the code strips every
occurrence of `TELEMETRY:`, not just the prefix.  On the line
`TELEMETRY:{"valve": "TELEMETRY:OPEN"}` the provided `valve` value
`TELEMETRY:OPEN` is not preserved: the parsed sample holds `OPEN`,
unlike the prefix-stripped parse. -/
theorem C4_replace_all_counterexample :
    parse_telemetry 5 "TELEMETRY:\x7b\"valve\": \"TELEMETRY:OPEN\"\x7d" =
      some [("valve", JsonVal.str "OPEN"),
        ("t", JsonVal.num (mkRat 5 1))] ∧
    parse_telemetry_spec 5 "TELEMETRY:\x7b\"valve\": \"TELEMETRY:OPEN\"\x7d" =
      some [("valve", JsonVal.str "TELEMETRY:OPEN"),
        ("t", JsonVal.num (mkRat 5 1))] ∧
    dictGet ((parse_telemetry 5
      "TELEMETRY:\x7b\"valve\": \"TELEMETRY:OPEN\"\x7d").getD []) "valve" ≠
      some (JsonVal.str "TELEMETRY:OPEN") := by
  decide
